import Mathlib

/-
  Verification of the baseview X11 window lifecycle (src/window.rs and
  src/x11/window.rs) against its design description.

  The embedding models the pure content of the source: sizes and scale
  factors over the rationals, the mutable fields of WindowInner as explicit
  record state, the mpsc channels by their documented std semantics, and the
  worker-thread lifecycle (including Rust drop-on-unwind) as explicit step
  traces.
-/

/-- Modelled from the spec: the crate type Size (not under src/) is a pair of
pixel dimensions; the spec describes logical and physical sizes related by an
exact scale factor, so the dimensions are taken over the rationals. -/
structure Size where
  width : ℚ
  height : ℚ
deriving DecidableEq

/-- Modelled from the spec: the crate type WindowInfo (not under src/) holds a
logical size, a physical size and a scale factor, derived once at open time
from the requested logical size and the resolved scale. -/
structure WindowInfo where
  logical_size : Size
  physical_size : Size
  scale : ℚ
deriving DecidableEq

/-- Modelled from the spec: WindowInfo::from_logical_size derives the physical
size by scaling the logical size with the resolved scale factor, so that the
logical size reported to the handler equals physical size divided by the scale
(spec sections 3 and 8: logical 800 by 600 at scale 2.0 gives physical 1600 by
1200). -/
def WindowInfo.from_logical_size (logical_size : Size) (scale : ℚ) : WindowInfo :=
  ⟨logical_size, ⟨logical_size.width * scale, logical_size.height * scale⟩, scale⟩

/-- Modelled from the spec: the scale policy is a tagged choice, either query
the system once at open time or use a fixed factor (crate type
WindowScalePolicy, named in the match in x11/window.rs lines 190-193). -/
inductive WindowScalePolicy where
  | SystemScaleFactor
  | ScaleFactor (factor : ℚ)
deriving DecidableEq

/-- Modelled from the spec: the open options carry a requested logical size
and a scale policy (the title and the optional rendering-surface
configuration play no role in the properties below). -/
structure WindowOpenOptions where
  size : Size
  scale : WindowScalePolicy
deriving DecidableEq

/-- Scale resolution in Window::window_thread (x11/window.rs lines 190-193):
under SystemScaleFactor the system query result is used with 1.0 as the
fallback when the query fails, and under ScaleFactor the fixed factor is used
unconditionally. The system query itself lives in xcb_connection.rs (not
under src/), so its result is a parameter. -/
def resolveScale (policy : WindowScalePolicy) (system_scale : Option ℚ) : ℚ :=
  match policy with
  | WindowScalePolicy.SystemScaleFactor => system_scale.getD 1
  | WindowScalePolicy.ScaleFactor factor => factor

/-- Modelled from the spec: the mouse-cursor catalog is an external
collaborator; only the identity of a cursor kind matters here, so a
representative enumeration stands in for the full crate enum, with Default
as the initial cached value. -/
inductive MouseCursor where
  | Default
  | Hand
  | HandGrabbing
  | Help
deriving DecidableEq

/-- Requests issued on the X connection by the window operations modelled
below. -/
inductive XRequest where
  | changeWindowAttributesCursor (xid : ℕ)
  | flushConn
deriving DecidableEq

/-- The WindowInner state visible to the facade operations modelled here
(x11/window.rs lines 89-101): the window info, the cached mouse_cursor Cell,
the close_requested Cell, together with the trace of requests issued on the X
connection. -/
structure WindowState where
  window_info : WindowInfo
  mouse_cursor : MouseCursor
  close_requested : Bool
  requests : List XRequest
deriving DecidableEq

/-- Window::set_mouse_cursor (x11/window.rs lines 300-316): if the cached
cursor already equals the argument, return at once; otherwise resolve the
cursor to an xid (get_cursor lives in xcb_connection.rs, not under src/, so
the resolved xid is a parameter function; the source unwraps its result),
issue a change-attributes request plus a flush when the xid is nonzero, and
finally cache the new cursor. -/
def Window.set_mouse_cursor (get_cursor : MouseCursor → ℕ) (s : WindowState)
    (c : MouseCursor) : WindowState :=
  if s.mouse_cursor = c then s
  else
    let xid := get_cursor c
    let requests :=
      if xid ≠ 0 then
        s.requests ++ [XRequest.changeWindowAttributesCursor xid, XRequest.flushConn]
      else s.requests
    ⟨s.window_info, c, s.close_requested, requests⟩

/-- Window::close (x11/window.rs lines 334-336): sets the close_requested
Cell. -/
def Window.close (s : WindowState) : WindowState :=
  ⟨s.window_info, s.mouse_cursor, true, s.requests⟩

/-- Window::has_focus (x11/window.rs lines 338-340): returns false and leaves
the state untouched. -/
def Window.has_focus (s : WindowState) : Bool × WindowState :=
  (false, s)

/-- Window::focus (x11/window.rs line 342): empty body, leaves the state
untouched. -/
def Window.focus (s : WindowState) : WindowState :=
  s

/-- State of the bound-zero close channel created by ParentHandle::new with
sync_channel(0) (x11/window.rs line 65), as seen by a sender: whether the
event-loop side still holds the Receiver (it is dropped when the worker
thread tears down), and whether that side is currently inside a receive
operation (ParentHandle::parent_did_drop polls try_recv once per event-loop
iteration, x11/window.rs lines 77-79). -/
structure CloseChannel where
  receiver_alive : Bool
  receiver_receiving : Bool
deriving DecidableEq

/-- Outcome of SyncSender::send on a rendezvous (bound-zero) channel, per the
std mpsc contract the source relies on: the send returns Err at once when the
Receiver has been dropped, hands the message off when the receiver is inside
a receive operation, and otherwise blocks until a receive operation appears. -/
inductive SendOutcome where
  | delivered
  | disconnected
  | blocked
deriving DecidableEq

def syncSendZero (ch : CloseChannel) : SendOutcome :=
  if ch.receiver_alive = false then SendOutcome.disconnected
  else if ch.receiver_receiving then SendOutcome.delivered
  else SendOutcome.blocked

/-- How a call of WindowHandle::close behaves: it either returns control to
the caller, panics, or stays blocked inside the send. -/
inductive CallResult where
  | returns
  | panicked
  | blocked
deriving DecidableEq

/-- WindowHandle::close (x11/window.rs lines 41-43): performs
close_requested.send(()).ok(). The Result of the send is discarded by ok(),
so a disconnected channel is swallowed rather than unwrapped; the call
returns exactly when the send itself completes. -/
def WindowHandle.close (ch : CloseChannel) : CallResult :=
  match syncSendZero ch with
  | SendOutcome.blocked => CallResult.blocked
  | SendOutcome.delivered => CallResult.returns
  | SendOutcome.disconnected => CallResult.returns

/-- Uniform events delivered to the handler: the window lifecycle events the
source constructs directly (x11/window.rs line 289), with the mouse and
keyboard translations of event_loop.rs (not under src/) abstracted into
opaque payloads. -/
inductive WindowEvent where
  | Resized (window_info : WindowInfo)
  | WillClose
deriving DecidableEq

inductive Event where
  | Window (e : WindowEvent)
  | Mouse (payload : ℕ)
  | Keyboard (payload : ℕ)
deriving DecidableEq

/-- The sequence of events Window::window_thread delivers to a freshly built
handler: immediately after construction it dispatches one synthetic Resized
event carrying the just-computed WindowInfo (x11/window.rs lines 287-289),
before signalling the initiator and before EventLoop::run begins; the events
later dispatched by the loop (event_loop.rs is not under src/) are an
arbitrary list appended after it. -/
def handlerEvents (options : WindowOpenOptions) (system_scale : Option ℚ)
    (loop_events : List Event) : List Event :=
  Event.Window (WindowEvent.Resized
    (WindowInfo.from_logical_size options.size (resolveScale options.scale system_scale)))
    :: loop_events

/-- The state of the WindowHandle record as ParentHandle::new builds it
(x11/window.rs lines 64-75): the raw native window reference and the shared
liveness flag. -/
structure WindowHandleState where
  raw_window_handle : Option ℕ
  is_open : Bool
deriving DecidableEq

/-- ParentHandle::new (x11/window.rs lines 64-75): creates the bound-zero
close channel and the shared liveness flag initialized to true, and returns
the WindowHandle side with raw_window_handle = None. -/
def ParentHandle.new : WindowHandleState :=
  ⟨Option.none, true⟩

/-- The point at which the user handler or the construction sequence fails,
if anywhere, during the worker-thread lifecycle of a parented window. -/
inductive PanicPoint where
  | noPanic
  | duringConnect
  | duringBuild
  | duringInitialEvent
  | duringLoop
deriving DecidableEq

/-- The ordered actions of the spawned worker thread running
Window::window_thread (x11/window.rs lines 166-298). -/
inductive Step where
  | construct
  | buildHandler
  | initialResized
  | signalConstructed
  | runLoop
  | dropParentHandle
deriving DecidableEq

/-- The trace of actions the worker thread performs, as a function of where,
if anywhere, a failure occurs. The construct step covers connecting to the X
server through creating and mapping the native window (lines 177-253); the
signalConstructed step is tx.send(Ok(SendableRwh(..))) (lines 291-293). The
ParentHandle is owned by the window_thread frame and then by the EventLoop,
so Rust drops it both on normal return and while unwinding after a panic or
an early Err return, which is why every trace ends with dropParentHandle. -/
def workerSteps : PanicPoint → List Step
  | PanicPoint.noPanic =>
      [Step.construct, Step.buildHandler, Step.initialResized,
       Step.signalConstructed, Step.runLoop, Step.dropParentHandle]
  | PanicPoint.duringConnect =>
      [Step.construct, Step.dropParentHandle]
  | PanicPoint.duringBuild =>
      [Step.construct, Step.buildHandler, Step.dropParentHandle]
  | PanicPoint.duringInitialEvent =>
      [Step.construct, Step.buildHandler, Step.initialResized,
       Step.dropParentHandle]
  | PanicPoint.duringLoop =>
      [Step.construct, Step.buildHandler, Step.initialResized,
       Step.signalConstructed, Step.runLoop, Step.dropParentHandle]

/-- The shared liveness flag after a worker trace: it starts at the true
value ParentHandle::new stores, and the only writer afterwards is the Drop
implementation of ParentHandle storing false (x11/window.rs lines 82-86). -/
def is_open_after (steps : List Step) : Bool :=
  steps.foldl (fun flag s =>
    match s with
    | Step.dropParentHandle => false
    | _ => flag) ParentHandle.new.is_open

/-- Whether the worker trace reaches the construction-complete signal. -/
def workerSends (p : PanicPoint) : Bool :=
  (workerSteps p).contains Step.signalConstructed

/-- Whether the worker thread ends by unwinding: nothing in window_thread
catches a panic, and the closure passed to thread::spawn unwraps the Err
returns of window_thread (lines 136-139), so every failure point makes the
worker thread itself terminate panicking. -/
def workerPanicked : PanicPoint → Bool
  | PanicPoint.noPanic => false
  | _ => true

/-- What the caller of open_blocking observes when the worker thread ends:
thread.join() delivers the panic payload of a panicked worker to the calling
thread as an Err, and the source handles it with unwrap_or_else printing the
panic to stderr (x11/window.rs lines 161-163), so the failure reaches the
calling thread and is reported there rather than silently dropped. -/
inductive CallerReport where
  | returnedNormally
  | panicReported
deriving DecidableEq

def open_blocking_report (p : PanicPoint) : CallerReport :=
  if workerPanicked p then CallerReport.panicReported
  else CallerReport.returnedNormally

/-- How the detached parented worker thread itself terminates. -/
inductive WorkerEnd where
  | exitedNormally
  | panickedUnwound
deriving DecidableEq

def workerEnd (p : PanicPoint) : WorkerEnd :=
  if workerPanicked p then WorkerEnd.panickedUnwound
  else WorkerEnd.exitedNormally

/-- Result of Receiver::recv per the std mpsc contract the source relies on:
recv returns the sent value when one is available, returns a disconnected
error when every sender has been dropped with nothing sent, and otherwise
keeps blocking (modelled as an absent result). -/
inductive RecvResult (α : Type) where
  | received (a : α)
  | disconnected
deriving DecidableEq

def recv {α : Type} (sent : Option α) (sender_alive : Bool) :
    Option (RecvResult α) :=
  match sent with
  | some a => some (RecvResult.received a)
  | Option.none =>
      if sender_alive then Option.none else some RecvResult.disconnected

/-- What the worker eventually put into the construction channel: Ok carrying
the raw window handle if the trace reaches the signal, nothing otherwise
(the Err arm of WindowOpenResult is never sent by this source). -/
def workerSent (p : PanicPoint) (rwh : ℕ) : Option (Except Unit ℕ) :=
  if workerSends p then some (Except.ok rwh) else Option.none

/-- The resolved state of the blocking rx.recv() inside open_parented: by the
time the wait can resolve, either the worker has sent the signal (and keeps
running the event loop, so its senders stay alive) or the worker thread has
terminated, dropping both tx and its clone. -/
def initiatorWaitResult (p : PanicPoint) (rwh : ℕ) :
    Option (RecvResult (Except Unit ℕ)) :=
  recv (workerSent p rwh) (workerSends p)

/-- Outcome of rx.recv().unwrap().unwrap() on the initiating thread
(x11/window.rs line 141): a received Ok yields the populated handle, a
received Err panics on the second unwrap, and a disconnected channel panics
on the first unwrap. An absent value means the wait is still blocked. -/
inductive WaitOutcome where
  | gotHandle (rwh : ℕ)
  | panickedRecvErr
  | panickedResultErr
deriving DecidableEq

def openParentedWait (p : PanicPoint) (rwh : ℕ) : Option WaitOutcome :=
  (initiatorWaitResult p rwh).map fun r =>
    match r with
    | RecvResult.received (Except.ok v) => WaitOutcome.gotHandle v
    | RecvResult.received (Except.error _) => WaitOutcome.panickedResultErr
    | RecvResult.disconnected => WaitOutcome.panickedRecvErr

/-- The steps Window::open_parented performs on the initiating thread after
parent-id extraction (x11/window.rs lines 132-144): create the channel and
the ParentHandle/WindowHandle pair, spawn the worker, block in recv until the
worker signals with the raw window handle, store that handle into
window_handle.raw_window_handle, and return the handle. -/
inductive InitiatorStep where
  | createHandlePair
  | spawnWorker
  | recvSignal (rwh : ℕ)
  | populateHandle (rwh : ℕ)
  | returnHandle
deriving DecidableEq

def open_parented_steps (rwh : ℕ) : List InitiatorStep :=
  [InitiatorStep.createHandlePair, InitiatorStep.spawnWorker,
   InitiatorStep.recvSignal rwh, InitiatorStep.populateHandle rwh,
   InitiatorStep.returnHandle]

/-- The raw native window reference held by the WindowHandle after a sequence
of initiator steps, starting from the absent reference ParentHandle::new
stores; only the populateHandle assignment writes it. -/
def raw_after (steps : List InitiatorStep) : Option ℕ :=
  steps.foldl (fun r s =>
    match s with
    | InitiatorStep.populateHandle v => some v
    | _ => r) ParentHandle.new.raw_window_handle

/-- How many times a sequence of initiator steps writes the raw reference. -/
def populations (steps : List InitiatorStep) : ℕ :=
  (steps.filter fun s =>
    match s with
    | InitiatorStep.populateHandle _ => true
    | _ => false).length

/-- The kinds of RawWindowHandle a caller can pass as the parent; the X11
backend accepts the Xlib and Xcb kinds and panics on every other kind
(x11/window.rs lines 126-130). -/
inductive RawWindowHandleKind where
  | Xlib (window : ℕ)
  | Xcb (window : ℕ)
  | Win32
  | AppKit
  | Wayland
deriving DecidableEq

/-- Parent-id extraction in Window::open_parented (lines 124-130): an Xlib
parent yields its window field cast to u32 (a truncating as-cast from the
c_ulong field), an Xcb parent yields its nonzero window id, and every other
kind reaches the panic arm, modelled as an absent result. -/
def parentId : RawWindowHandleKind → Option ℕ
  | RawWindowHandleKind.Xlib w => some (w % 2 ^ 32)
  | RawWindowHandleKind.Xcb w => some w
  | _ => Option.none

/-- The native resources the worker thread would create for a window. -/
inductive NativeResource where
  | xConnection
  | graphicsContext
  | nativeWindow
deriving DecidableEq

inductive AttemptEnd where
  | handleReturned
  | panickedUnsupported
deriving DecidableEq

structure Attempt where
  resources : List NativeResource
  ending : AttemptEnd
deriving DecidableEq

/-- Window::open_parented as the initiating thread observes it: parent-id
extraction is the first action (lines 124-130) and panics on an unsupported
kind before the channel pair exists and before the worker thread, which is
what connects to the X server, creates a graphics context and creates the
native window (lines 177-233), is spawned; with a supported kind those
resources are created and a handle is returned. -/
def open_parented_attempt (k : RawWindowHandleKind) : Attempt :=
  match parentId k with
  | Option.none => ⟨[], AttemptEnd.panickedUnsupported⟩
  | some _ =>
      ⟨[NativeResource.xConnection, NativeResource.graphicsContext,
        NativeResource.nativeWindow], AttemptEnd.handleReturned⟩

/-- Claim C1, counterexample: close() does block when the event-loop thread
still holds the Receiver but is not currently inside a receive operation,
because send on a bound-zero rendezvous channel waits for the matching
receive; so close() is not non-blocking for every call sequence. -/
theorem c1_close_blocks_counterexample :
    WindowHandle.close ⟨true, false⟩ = CallResult.blocked := by
  decide

/-- Claim C1, amended: close() never panics; once the event-loop thread has
exited and dropped the Receiver, every close() call, including repeated ones,
returns at once as a harmless no-op (the send error is discarded); but while
the event-loop thread is alive and not inside a receive, the send on the
bound-zero rendezvous channel blocks until the event loop next polls the
channel. -/
theorem c1_close_amended (ch : CloseChannel) :
    WindowHandle.close ch ≠ CallResult.panicked ∧
    (ch.receiver_alive = false → WindowHandle.close ch = CallResult.returns) ∧
    (ch.receiver_alive = true → ch.receiver_receiving = false →
      WindowHandle.close ch = CallResult.blocked) := by
  cases ch with
  | mk alive receiving => cases alive <;> cases receiving <;> decide

/-- Claim C1, witness for the amended statement at the concrete channel state
in which the event-loop thread has exited. -/
theorem c1_close_amended_witness :
    WindowHandle.close ⟨false, false⟩ = CallResult.returns :=
  (c1_close_amended ⟨false, false⟩).2.1 rfl

/-- Claim C4: for every scale policy and options, the first event dispatched
to a freshly built handler is a Resized event whose logical size equals the
requested size, dispatched before the event loop begins; concretely, opening
with logical size 800 by 600 under fixed scale 2.0 yields a first event
Resized with logical size 800 by 600 and physical size 1600 by 1200. -/
theorem c4_first_event_resized (options : WindowOpenOptions)
    (system_scale : Option ℚ) (loop_events : List Event) :
    ((handlerEvents options system_scale loop_events).head? =
      some (Event.Window (WindowEvent.Resized
        (WindowInfo.from_logical_size options.size
          (resolveScale options.scale system_scale)))) ∧
     (WindowInfo.from_logical_size options.size
        (resolveScale options.scale system_scale)).logical_size = options.size) ∧
    (handlerEvents ⟨⟨800, 600⟩, WindowScalePolicy.ScaleFactor 2⟩ Option.none []).head?
      = some (Event.Window (WindowEvent.Resized ⟨⟨800, 600⟩, ⟨1600, 1200⟩, 2⟩)) := by
  refine ⟨⟨rfl, rfl⟩, ?_⟩
  show some _ = _
  norm_num [handlerEvents, WindowInfo.from_logical_size, resolveScale]

lemma set_mouse_cursor_cached (get_cursor : MouseCursor → ℕ) (s : WindowState)
    (c : MouseCursor) :
    (Window.set_mouse_cursor get_cursor s c).mouse_cursor = c := by
  unfold Window.set_mouse_cursor
  split
  · next h => exact h
  · rfl

lemma set_mouse_cursor_early_return (get_cursor : MouseCursor → ℕ)
    (s : WindowState) (c : MouseCursor) (h : s.mouse_cursor = c) :
    Window.set_mouse_cursor get_cursor s c = s := by
  unfold Window.set_mouse_cursor
  simp [h]

/-- Claim C8: on the X11 backend, Window::has_focus returns false for every
window state, and Window::focus is a no-op that leaves all window state
unchanged. -/
theorem c8_has_focus_false_focus_noop (s : WindowState) :
    (Window.has_focus s).1 = false ∧ (Window.has_focus s).2 = s ∧
    Window.focus s = s :=
  ⟨rfl, rfl, rfl⟩

/-- Claim C9: when the scale policy is SystemScaleFactor and the system scale
query fails, the resolved scale factor defaults to 1.0, and the WindowInfo
computed from it has physical size equal to the requested logical size; when
the policy is ScaleFactor f, the resolved scale is exactly f regardless of
the system query result. -/
theorem c9_resolve_scale (size : Size) (f : ℚ) (sys : Option ℚ) :
    resolveScale WindowScalePolicy.SystemScaleFactor Option.none = 1 ∧
    (WindowInfo.from_logical_size size
        (resolveScale WindowScalePolicy.SystemScaleFactor Option.none)).physical_size
      = (WindowInfo.from_logical_size size
        (resolveScale WindowScalePolicy.SystemScaleFactor Option.none)).logical_size ∧
    resolveScale (WindowScalePolicy.ScaleFactor f) sys = f := by
  refine ⟨rfl, ?_, rfl⟩
  cases size
  simp [WindowInfo.from_logical_size, resolveScale]

/-- Claim C10: Window::set_mouse_cursor is idempotent: after any call with
cursor c the cached cursor equals c, and a subsequent call with the same
cursor returns early, issuing no native request and changing no state. -/
theorem c10_set_mouse_cursor_idempotent (get_cursor : MouseCursor → ℕ)
    (s : WindowState) (c : MouseCursor) :
    (Window.set_mouse_cursor get_cursor s c).mouse_cursor = c ∧
    Window.set_mouse_cursor get_cursor (Window.set_mouse_cursor get_cursor s c) c
      = Window.set_mouse_cursor get_cursor s c :=
  ⟨set_mouse_cursor_cached get_cursor s c,
   set_mouse_cursor_early_return get_cursor _ c
     (set_mouse_cursor_cached get_cursor s c)⟩

/-- Claim C2: when the handler panics during event or frame dispatch (or the
construction sequence fails), the liveness flag is still torn down on the
worker trace; in blocking mode the failure is delivered to the calling
thread at join and reported there; and in parented mode the worker thread
terminates by unwinding rather than swallowing the panic. -/
theorem c2_handler_panic_teardown (p : PanicPoint)
    (h : workerPanicked p = true) :
    is_open_after (workerSteps p) = false ∧
    open_blocking_report p = CallerReport.panicReported ∧
    workerEnd p = WorkerEnd.panickedUnwound := by
  cases p <;> simp_all [is_open_after, workerSteps, open_blocking_report,
    workerEnd, workerPanicked, ParentHandle.new]

/-- Claim C2, witness at a handler panic inside the event loop. -/
theorem c2_handler_panic_teardown_witness :
    is_open_after (workerSteps PanicPoint.duringLoop) = false ∧
    open_blocking_report PanicPoint.duringLoop = CallerReport.panicReported ∧
    workerEnd PanicPoint.duringLoop = WorkerEnd.panickedUnwound :=
  c2_handler_panic_teardown PanicPoint.duringLoop rfl

/-- Claim C3: once the worker thread has either signalled or terminated, the
wait inside open_parented is resolved (never still blocked), and whenever the
worker fails before signalling completion, the initiating thread observes a
disconnected channel and panics on the unwrap: an observable failure rather
than an indefinite hang. -/
theorem c3_wait_terminates (p : PanicPoint) (rwh : ℕ) :
    openParentedWait p rwh ≠ Option.none ∧
    (workerSends p = false →
      openParentedWait p rwh = some WaitOutcome.panickedRecvErr) := by
  cases p <;>
    simp [openParentedWait, initiatorWaitResult, workerSent, workerSends,
      workerSteps, recv]

/-- Claim C3, witness at a construction failure before the signal. -/
theorem c3_wait_terminates_witness :
    openParentedWait PanicPoint.duringConnect 7 =
      some WaitOutcome.panickedRecvErr :=
  (c3_wait_terminates PanicPoint.duringConnect 7).2 rfl

/-- Claim C5: for a successful open_parented call (one whose worker trace
reaches the construction-complete signal), the liveness flag is still true at
every point up to that signal, so is_open reads true when open_parented
returns; the flag is false after the full worker trace on every exit path;
and every worker trace, panicking or not, ends with the ParentHandle drop
that clears the flag. -/
theorem c5_is_open_lifecycle (p : PanicPoint) :
    (workerSends p = true →
      is_open_after ((workerSteps p).takeWhile
        (fun s => s != Step.signalConstructed)) = true) ∧
    is_open_after (workerSteps p) = false ∧
    (workerSteps p).getLast? = some Step.dropParentHandle := by
  cases p <;> exact ⟨by decide, rfl, rfl⟩

/-- Claim C5, witness at the panic-free trace. -/
theorem c5_is_open_lifecycle_witness :
    is_open_after ((workerSteps PanicPoint.noPanic).takeWhile
      (fun s => s != Step.signalConstructed)) = true :=
  (c5_is_open_lifecycle PanicPoint.noPanic).1 rfl

/-- Claim C7: the raw native window reference is absent when the handle pair
is created and stays absent through the wait for the signal; it is populated
exactly once, with the value the worker signalled; open_parented returns only
after that population (the populate step sits between the recv of the signal
and the return in the initiator trace); and the reference at the return is
exactly the signalled handle. -/
theorem c7_raw_handle_lifecycle (rwh : ℕ) :
    ParentHandle.new.raw_window_handle = Option.none ∧
    raw_after ((open_parented_steps rwh).take 3) = Option.none ∧
    raw_after (open_parented_steps rwh) = some rwh ∧
    populations (open_parented_steps rwh) = 1 ∧
    (open_parented_steps rwh).take 3 ++
        [InitiatorStep.populateHandle rwh, InitiatorStep.returnHandle]
      = open_parented_steps rwh :=
  ⟨rfl, rfl, rfl, rfl, rfl⟩

/-- Claim C6: for every parent handle whose kind is neither Xlib nor Xcb,
open_parented fails by panicking during extraction, before any native
resource is created: no connection is opened and no native window is
allocated, and the attempt terminates at once instead of hanging the
caller. -/
theorem c6_unsupported_parent_fails_early (k : RawWindowHandleKind)
    (h : parentId k = Option.none) :
    (open_parented_attempt k).resources = [] ∧
    (open_parented_attempt k).ending = AttemptEnd.panickedUnsupported := by
  simp [open_parented_attempt, h]

/-- Claim C6, witness at a Win32 parent handle. -/
theorem c6_unsupported_parent_fails_early_witness :
    (open_parented_attempt RawWindowHandleKind.Win32).resources = [] ∧
    (open_parented_attempt RawWindowHandleKind.Win32).ending
      = AttemptEnd.panickedUnsupported :=
  c6_unsupported_parent_fails_early RawWindowHandleKind.Win32 rfl
